import Mathlib

/-!
Shallow embedding of the RAG backend of `RAG_Backend_EgyptianHistory`
(Node/Express controller `backend/controllers/ragController.js`, the multer
upload configuration in `backend/routes/api.js`, and the Mongoose message
model) together with proofs checking the natural-language specification
against it.

JavaScript strings are modelled as Lean `String`; JS truthiness of a string
(`""`, `null`, `undefined` are falsy) is modelled explicitly.  Filesystem
directories are modelled as lists of file names, the MongoDB message and
conversation collections as lists of records, and the external model server
as an oracle value passed in (`ModelOutcome`).
-/

/-! ## JavaScript string primitives, modelled structurally on `List Char` -/

/-- JS truthiness of a string value: the empty string is falsy. -/
def jsTruthy (s : String) : Bool :=
  !s.data.isEmpty

/-- JS truthiness of a possibly-null/undefined string. -/
def jsTruthyOpt : Option String → Bool
  | none => false
  | some s => jsTruthy s

/-- Does `pat` occur as a leading segment of `l`? -/
def prefixAt (pat l : List Char) : Bool :=
  List.isPrefixOf pat l

/-- `String.prototype.includes(pat)` for a nonempty pattern: scan left to right. -/
def includesAux (pat : List Char) : List Char → Bool
  | [] => pat.isEmpty
  | c :: cs => prefixAt pat (c :: cs) || includesAux pat cs

/-- JS `s.includes(pat)`. -/
def jsIncludes (s pat : String) : Bool :=
  includesAux pat.data s.data

/-- Replace the first occurrence of `pat` (nonempty) by `rep`, scanning left to
right; JS `String.prototype.replace` with a string pattern. -/
def replaceFirstAux (pat rep : List Char) : List Char → List Char
  | [] => []
  | c :: cs =>
    if prefixAt pat (c :: cs) then rep ++ List.drop pat.length (c :: cs)
    else c :: replaceFirstAux pat rep cs

/-- JS `s.replace(pat, rep)` (first occurrence only). -/
def jsReplace (s pat rep : String) : String :=
  ⟨replaceFirstAux pat.data rep.data s.data⟩

/-- JS `s.endsWith(suffix)`. -/
def jsEndsWith (s suffix : String) : Bool :=
  List.isSuffixOf suffix.data s.data

/-- ASCII lowering of one character (the filenames in this repository are ASCII). -/
def charLower (c : Char) : Char :=
  if 'A' ≤ c && c ≤ 'Z' then Char.ofNat (c.toNat + 32) else c

/-- JS `s.toLowerCase()` restricted to ASCII. -/
def jsToLower (s : String) : String :=
  ⟨s.data.map charLower⟩

/-- JS `s.trim()`. -/
def jsTrim (s : String) : String :=
  ⟨((s.data.dropWhile Char.isWhitespace).reverse.dropWhile Char.isWhitespace).reverse⟩

/-- Value of a digit string, as produced by `parseInt` on an all-digit match. -/
def digitsToNat (ds : List Char) : Nat :=
  ds.foldl (fun n c => n * 10 + (c.toNat - '0'.toNat)) 0

/-- The scan performed by the regex `/progress: (\d+)/`: at each position, try
to match the literal `progress: ` followed by at least one digit; on success
the maximal digit run is the capture, otherwise scanning resumes one character
further right. -/
def progressScan (pat : List Char) : List Char → Option (List Char)
  | [] => none
  | c :: cs =>
    if prefixAt pat (c :: cs) then
      let ds := (List.drop pat.length (c :: cs)).takeWhile Char.isDigit
      if ds.isEmpty then progressScan pat cs else some ds
    else progressScan pat cs

/-- `output.match(/progress: (\d+)/)` followed by `parseInt` on the capture. -/
def parseProgress (s : String) : Option Nat :=
  (progressScan "progress: ".data s.data).map digitsToNat

/-! ## Indexing status record (`indexingStatus` in `ragController.js`) -/

/-- The module-level mutable record `indexingStatus` of `ragController.js`
(second revision, the one with `currentFile`). -/
structure IndexingStatus where
  isIndexing : Bool
  progress : Nat
  error : Option String
  message : Option String
  lastIndexed : Option String
  currentFile : Option String
deriving DecidableEq, Repr

/-- The initial value of `indexingStatus` at module load. -/
def initialIndexingStatus : IndexingStatus :=
  { isIndexing := false, progress := 0, error := none, message := none
    lastIndexed := none, currentFile := none }

/-- The reset performed by `indexDocument` when it accepts a request for
`filename` (lines 309–316): every field cleared, `currentFile` set. -/
def freshIndexingStatus (filename : String) : IndexingStatus :=
  { isIndexing := true, progress := 0, error := none, message := none
    lastIndexed := none, currentFile := some filename }

/-- The JSON body sent by `indexDocument`'s four exits. `progress` is present
only on the 409 exit, `statusEcho` only on the 202 exit (which echoes the
freshly reset status record). -/
structure IndexResponse where
  status : Nat
  success : Bool
  message : String
  progress : Option Nat := none
  statusEcho : Option IndexingStatus := none
deriving DecidableEq, Repr

/-- `exports.indexDocument` (lines 278–405).  Inputs: the current status
record, the `filename` field of the request body (`none` models a missing or
non-truthy field via `jsTruthyOpt`), and the set of files present in `data/`.
Output: the HTTP response, the status record after the synchronous part of the
handler, and whether a `python rag/indexer.py` child process was spawned. -/
def indexDocument (st : IndexingStatus) (filenameField : Option String)
    (dataFiles : List String) : IndexResponse × IndexingStatus × Bool :=
  if st.isIndexing then
    ({ status := 409, success := false, message := "Indexing already in progress"
       progress := some st.progress }, st, false)
  else if !jsTruthyOpt filenameField then
    ({ status := 400, success := false, message := "Filename is required" }, st, false)
  else
    let f := filenameField.getD ""
    if dataFiles.contains f then
      let newSt := freshIndexingStatus f
      ({ status := 202, success := true, message := "Indexing started for " ++ f
         statusEcho := some newSt }, newSt, true)
    else
      ({ status := 404, success := false
         message := "PDF file " ++ f ++ " not found. Please upload the file first." },
       st, false)

/-- The body of `exports.getStatus` (lines 551–565): a copy of the status
record without `currentFile`. -/
structure StatusView where
  isIndexing : Bool
  progress : Nat
  message : Option String
  error : Option String
  lastIndexed : Option String
deriving DecidableEq, Repr

/-- `exports.getStatus`, as a projection of the status record. -/
def getStatus (st : IndexingStatus) : StatusView :=
  { isIndexing := st.isIndexing, progress := st.progress, message := st.message
    error := st.error, lastIndexed := st.lastIndexed }

/-! ## The indexer child process as seen by the controller

`indexDocument` spawns `python rag/indexer.py` and installs three event
handlers that mutate `indexingStatus`; a run is a sequence of stdout/stderr
data events followed by one close event. -/

/-- One data event of the indexer child process. -/
inductive IndexerEvent where
  | stdout (s : String)
  | stderr (s : String)
deriving DecidableEq, Repr

/-- The `pythonProcess.stdout.on('data', ...)` handler (lines 326–344):
after trimming, a line containing `progress:` updates `progress` with the
value captured by `/progress: (\d+)/` (if the regex matches at all);
otherwise a line containing `completed` is stored as `message`. -/
def handleStdout (st : IndexingStatus) (data : String) : IndexingStatus :=
  let output := jsTrim data
  if jsIncludes output "progress:" then
    match parseProgress output with
    | some n => { st with progress := n }
    | none => st
  else if jsIncludes output "completed" then
    { st with message := some output }
  else st

/-- The `pythonProcess.stderr.on('data', ...)` handler (lines 346–357):
a line containing `ERROR` or `Error:` is recorded as `error`; otherwise a
line containing `completed` or `INFO` is recorded as `message`. -/
def handleStderr (st : IndexingStatus) (data : String) : IndexingStatus :=
  if jsIncludes data "ERROR" || jsIncludes data "Error:" then
    { st with error := some data }
  else if jsIncludes data "completed" || jsIncludes data "INFO" then
    { st with message := some data }
  else st

/-- Dispatch one indexer event to its handler. -/
def handleEvent (st : IndexingStatus) : IndexerEvent → IndexingStatus
  | .stdout s => handleStdout st s
  | .stderr s => handleStderr st s

/-- The `pythonProcess.on('close', ...)` handler (lines 359–388).  `filename`
is the file being indexed, `now` the ISO timestamp of `new Date()`, `code` the
child's exit code.  On exit code 0: progress forced to 100, `lastIndexed`
set, a default success message filled in when `message` is falsy, and an
`error` that is really an INFO/completed line moved over to `message`.  On a
nonzero exit code: a fallback error is recorded when `error` is falsy.
Either way `isIndexing` is cleared last. -/
def handleClose (filename now : String) (code : Int) (st : IndexingStatus) :
    IndexingStatus :=
  if code = 0 then
    let st1 := { st with progress := 100, lastIndexed := some now }
    let st2 :=
      if jsTruthyOpt st1.message then st1
      else { st1 with message := some ("Indexing of " ++ filename ++ " completed successfully") }
    let st3 :=
      match st2.error with
      | some e =>
        if jsTruthy e && jsIncludes e "INFO" && jsIncludes e "completed" then
          { st2 with error := none, message := some e }
        else st2
      | none => st2
    { st3 with isIndexing := false }
  else
    let st1 :=
      if jsTruthyOpt st.error then st
      else { st with error := some ("Process exited with code " ++ toString code) }
    { st1 with isIndexing := false }

/-- The status record in the middle of a run: the fresh record after the
data events processed so far. -/
def midRunStatus (filename : String) (events : List IndexerEvent) : IndexingStatus :=
  events.foldl handleEvent (freshIndexingStatus filename)

/-- A whole indexing run: the reset record, the data events, then close. -/
def runIndexer (filename : String) (events : List IndexerEvent) (code : Int)
    (now : String) : IndexingStatus :=
  handleClose filename now code (midRunStatus filename events)

/-! ## Conversation store (Mongoose `Message` and `Conversation` models) -/

/-- A document of the `Message` collection (`backend/models/message.js`):
`conversationId`, `role`, `content`, `timestamp` (defaulted to `Date.now`),
and the optional RAG metadata stored on assistant messages. -/
structure Msg where
  conversationId : Nat
  role : String
  content : String
  timestamp : Nat
  metaSources : List String := []
  metaEnhanced : Option String := none
  metaOriginal : Option String := none
deriving DecidableEq, Repr

/-- A document of the `Conversation` collection, restricted to the fields
`queryRag` touches. -/
structure Conversation where
  id : Nat
  updatedAt : Nat
deriving DecidableEq, Repr

/-- The sort key of `Message.find(..).sort({ timestamp: -1 })`: descending
timestamp. -/
def tsDesc (a b : Msg) : Prop :=
  b.timestamp ≤ a.timestamp

instance : DecidableRel tsDesc := fun a b =>
  inferInstanceAs (Decidable (b.timestamp ≤ a.timestamp))

instance : IsTotal Msg tsDesc :=
  ⟨fun a b => Nat.le_total b.timestamp a.timestamp⟩

instance : IsTrans Msg tsDesc :=
  ⟨fun _ _ _ h1 h2 => Nat.le_trans h2 h1⟩

/-- `Message.find({ conversationId })`: the conversation's messages. -/
def conversationMessages (store : List Msg) (cid : Nat) : List Msg :=
  store.filter (fun m => m.conversationId == cid)

/-- `Message.find({ conversationId }).sort({ timestamp: -1 }).limit(10)`
followed by `messages.reverse()` (lines 434–438): the most recent ten
messages of the conversation, oldest first. -/
def recentMessages (store : List Msg) (cid : Nat) : List Msg :=
  (((conversationMessages store cid).insertionSort tsDesc).take 10).reverse

/-- `chatHistory` as sent to the model server (line 438–441): each selected
message reduced to `(role, content)`. -/
def chatHistoryFor (store : List Msg) (cid : Nat) : List (String × String) :=
  (recentMessages store cid).map (fun m => (m.role, m.content))

/-! ## The query pipeline (`exports.queryRag`, lines 417–548) -/

/-- The request body and query string of a `/api/query` call. -/
structure QueryReq where
  question : Option String := none
  query : Option String := none
  conversationId : Option Nat := none
  bodyFormat : Option String := none
  queryFormat : Option String := none
deriving DecidableEq, Repr

/-- A JS value in the `response.answer` position: either a string, or any
other JSON value carried by its `JSON.stringify(·, null, 2)` rendering. -/
inductive JsVal where
  | str (s : String)
  | other (rendering : String)
deriving DecidableEq, Repr

/-- Lines 469–473: a string answer is used as is, anything else is
stringified. -/
def JsVal.toPlainText : JsVal → String
  | .str s => s
  | .other r => r

/-- The `response` object of a well-shaped model-server reply
(`rawData.response` truthy and of object type). -/
structure RespObj where
  answer : JsVal
  sources : Option (List String) := none
  enhanced : Option String := none
  original : Option String := none
deriving DecidableEq, Repr

/-- The outcome of `axios.post(MODEL_SERVER_URL + "/query", ...)`: either the
request throws (network/HTTP error with message `err`), or it yields data
whose `response` field is a well-shaped object (`some obj`) or anything else
(`none`, covering a missing/non-object `response`). -/
inductive ModelOutcome where
  | failure (err : String)
  | success (resp : Option RespObj)
deriving DecidableEq, Repr

/-- JS `x || null` on an optional string: an empty string collapses to null. -/
def jsStrOrNull : Option String → Option String
  | none => none
  | some s => if jsTruthy s then some s else none

/-- Lines 461–481: extraction of `(plainTextAnswer, sources, enhancedQuery,
originalQuery)` from the model reply. -/
def extractAnswer : Option RespObj → String × List String × Option String × Option String
  | some r => (r.answer.toPlainText, r.sources.getD [], jsStrOrNull r.enhanced, jsStrOrNull r.original)
  | none => ("I'm sorry, I couldn't generate a proper response. Please try again.", [], none, none)

/-- The HTTP request actually issued to the model server (line 451–455). -/
structure ModelCall where
  query : String
  top_k : Nat
  chat_history : List (String × String)
deriving DecidableEq, Repr

/-- The responses `queryRag` can send. -/
inductive QueryResponse where
  | badRequest (message : String)
  | serverError (message : String) (error : String)
  | jsonAnswer (answer : String) (sources : List String)
      (enhanced : Option String) (original : Option String)
  | textAnswer (body : String)
deriving DecidableEq, Repr

/-- HTTP status code of each response shape. -/
def QueryResponse.statusCode : QueryResponse → Nat
  | .badRequest _ => 400
  | .serverError _ _ => 500
  | .jsonAnswer _ _ _ _ => 200
  | .textAnswer _ => 200

/-- The `success` field of the JSON body, when present. -/
def QueryResponse.successField : QueryResponse → Option Bool
  | .badRequest _ => some false
  | .serverError _ _ => some false
  | .jsonAnswer _ _ _ _ => none
  | .textAnswer _ => none

/-- Lines 485–516: on a successful model reply and a provided
`conversationId`, persist the user turn and the assistant turn (with
metadata) and refresh the conversation's `updatedAt`; when the conversation
does not exist nothing is written. -/
def saveConversation (cid : Nat) (queryText answer : String) (sources : List String)
    (enhanced original : Option String) (msgs : List Msg) (convs : List Conversation)
    (now : Nat) : List Msg × List Conversation :=
  match convs.find? (fun c => c.id == cid) with
  | none => (msgs, convs)
  | some _ =>
    (msgs ++
      [{ conversationId := cid, role := "user", content := queryText, timestamp := now },
       { conversationId := cid, role := "assistant", content := answer, timestamp := now
         metaSources := sources, metaEnhanced := enhanced, metaOriginal := original }],
     convs.map (fun c => if c.id == cid then { c with updatedAt := now } else c))

/-- Everything observable about one `queryRag` call: the HTTP response, the
message and conversation collections afterwards, and the request made to the
model server (`none` when it was never called). -/
structure QueryResult where
  response : QueryResponse
  msgs : List Msg
  convs : List Conversation
  modelCall : Option ModelCall
deriving DecidableEq, Repr

/-- `exports.queryRag` (lines 417–548).  `req` is the HTTP request, `msgs`
and `convs` the MongoDB collections, `outcome` the behaviour of the model
server on this call, `now` the current time used for `Date.now`/message
timestamps.  `const queryText = req.body.question || req.body.query` with JS
truthiness; a falsy `queryText` yields 400 before any model call or write;
a model-server error yields 500 before any write; on success the turns are
persisted (when a `conversationId` was sent and exists) and the answer is
returned as JSON unless the caller set a format other than `json`. -/
def queryRag (req : QueryReq) (msgs : List Msg) (convs : List Conversation)
    (outcome : ModelOutcome) (now : Nat) : QueryResult :=
  let queryText := if jsTruthyOpt req.question then req.question else req.query
  if !jsTruthyOpt queryText then
    { response := .badRequest "Question is required", msgs := msgs, convs := convs
      modelCall := none }
  else
    let qt := queryText.getD ""
    let chatHistory :=
      match req.conversationId with
      | some cid => chatHistoryFor msgs cid
      | none => []
    let call : ModelCall := { query := qt, top_k := 5, chat_history := chatHistory }
    match outcome with
    | .failure e =>
      { response := .serverError "Error generating response from model server" e
        msgs := msgs, convs := convs, modelCall := some call }
    | .success resp =>
      let ext := extractAnswer resp
      let ans := ext.1
      let sources := ext.2.1
      let enhanced := ext.2.2.1
      let original := ext.2.2.2
      let saved :=
        match req.conversationId with
        | some cid => saveConversation cid qt ans sources enhanced original msgs convs now
        | none => (msgs, convs)
      let isJsonFormat := req.queryFormat == some "json" || req.bodyFormat == some "json"
      if isJsonFormat || !jsTruthyOpt req.queryFormat then
        { response := .jsonAnswer ans sources enhanced original
          msgs := saved.1, convs := saved.2, modelCall := some call }
      else
        { response := .textAnswer ans
          msgs := saved.1, convs := saved.2, modelCall := some call }

/-! ## Upload (`backend/routes/api.js` multer config + `exports.uploadPdf`)
and `exports.getDocuments` -/

/-- The parts of `req.file` that matter to the upload pipeline. -/
structure UploadedFile where
  originalname : String
  mimetype : String
deriving DecidableEq, Repr

/-- The filesystem state the controller reads and writes: the names in
`data/` and in `vector_store/`. -/
structure FsState where
  dataFiles : List String
  vectorStoreFiles : List String
deriving DecidableEq, Repr

/-- Writing a file into a directory listing (an overwrite leaves the listing
unchanged). -/
def addFile (files : List String) (name : String) : List String :=
  if files.contains name then files else files ++ [name]

/-- The multer `storage`/`fileFilter` configuration of `routes/api.js`
(lines 25–44): every accepted file is saved into `data/` under the fixed
name `egyptian_history.pdf` regardless of its original name; a file whose
mimetype is not `application/pdf` is rejected with
`Only PDF files are allowed!` and nothing is written. Returns the handler
outcome and the `data/` listing afterwards. -/
def multerSave (f : UploadedFile) (dataFiles : List String) :
    Except String String × List String :=
  if f.mimetype = "application/pdf" then
    (.ok "egyptian_history.pdf", addFile dataFiles "egyptian_history.pdf")
  else
    (.error "Only PDF files are allowed!", dataFiles)

/-- The filesystem effect of `exports.uploadPdf` (lines 250–262) once multer
stored the file as `storedName`: the exact-named metadata file
`<base>_metadata.json` (with `base = storedName.replace('.pdf','')`) is
unlinked from `vector_store/` when it exists. -/
def uploadPdf (fs : FsState) (storedName : String) : FsState :=
  let base := jsReplace storedName ".pdf" ""
  { fs with
    vectorStoreFiles :=
      fs.vectorStoreFiles.filter (fun m => !(m == base ++ "_metadata.json")) }

/-- Is the pdf file `file` of `data/` reported as indexed by
`exports.getDocuments` (lines 583–609)?  The set of indexed names is built
from the `vector_store/` entries ending in `_metadata.json`, each with that
marker removed (first occurrence) and lowercased; the pdf's name with
`.pdf` removed (first occurrence) and lowercased is looked up in it. -/
def isIndexedDoc (vectorStoreFiles : List String) (file : String) : Bool :=
  ((vectorStoreFiles.filter (fun m => jsEndsWith m "_metadata.json")).map
      (fun m => jsToLower (jsReplace m "_metadata.json" ""))).contains
    (jsToLower (jsReplace file ".pdf" ""))

/-- `exports.getDocuments` (lines 567–632), restricted to the
`(filename, indexed)` pair of each returned document object: the files of
`data/` whose lowercased name ends in `.pdf`, each with its indexed flag. -/
def getDocuments (fs : FsState) : List (String × Bool) :=
  (fs.dataFiles.filter (fun f => jsEndsWith (jsToLower f) ".pdf")).map
    (fun f => (f, isIndexedDoc fs.vectorStoreFiles f))

/-! ## Concrete fixtures used by counterexamples and witnesses -/

/-- A status record in the middle of indexing document `A.pdf`. -/
def inFlightOnA : IndexingStatus :=
  { isIndexing := true, progress := 37, error := none, message := none
    lastIndexed := none, currentFile := some "A.pdf" }

/-- A request that sets the `format` query parameter to `text`. -/
def textFormatReq : QueryReq :=
  { question := some "Who built the Great Pyramid", queryFormat := some "text" }

/-- A well-shaped model reply naming Khufu with one source. -/
def khufuOutcome : ModelOutcome :=
  .success (some { answer := .str "Khufu", sources := some ["page 2"]
                   original := some "Who built the Great Pyramid" })

/-- One message of the demonstration conversation. -/
def demoMsg (i : Nat) : Msg :=
  { conversationId := 1, role := if i % 2 == 0 then "assistant" else "user"
    content := "turn " ++ toString i, timestamp := i }

/-- Twelve messages (six exchanges) in conversation 1. -/
def demoStore : List Msg :=
  (List.range 12).map (fun i => demoMsg (i + 1))

/-- A request body carrying a present-but-empty `question` key next to a
nonempty `query` key. -/
def emptyQuestionReq : QueryReq :=
  { question := some "", query := some "capital of Egypt" }

/-! ## Helper lemmas -/

/-- The stdout/stderr data handlers never touch `lastIndexed` or
`isIndexing`. -/
theorem handleEvent_fixed_fields (st : IndexingStatus) (ev : IndexerEvent) :
    (handleEvent st ev).lastIndexed = st.lastIndexed ∧
    (handleEvent st ev).isIndexing = st.isIndexing := by
  cases ev <;> simp only [handleEvent, handleStdout, handleStderr] <;>
    (repeat' split) <;> simp

/-- Folding any sequence of data events preserves `lastIndexed` and
`isIndexing`. -/
theorem foldl_handleEvent_fixed_fields (evs : List IndexerEvent)
    (st : IndexingStatus) :
    (evs.foldl handleEvent st).lastIndexed = st.lastIndexed ∧
    (evs.foldl handleEvent st).isIndexing = st.isIndexing := by
  induction evs generalizing st with
  | nil => exact ⟨rfl, rfl⟩
  | cons e es ih =>
    simp only [List.foldl_cons]
    exact ⟨(ih (handleEvent st e)).1.trans (handleEvent_fixed_fields st e).1,
           (ih (handleEvent st e)).2.trans (handleEvent_fixed_fields st e).2⟩

/-- On a zero exit code, `handleClose` forces progress to 100, clears
`isIndexing` and stamps `lastIndexed`, whatever the mid-run record was. -/
theorem handleClose_zero (filename now : String) (st : IndexingStatus) :
    (handleClose filename now 0 st).progress = 100 ∧
    (handleClose filename now 0 st).isIndexing = false ∧
    (handleClose filename now 0 st).lastIndexed = some now := by
  simp only [handleClose, if_pos rfl]
  (repeat' split) <;> simp_all

/-- On a nonzero exit code, `handleClose` leaves `progress` and `lastIndexed`
alone, clears `isIndexing`, and records a fallback error exactly when the
current error is falsy. -/
theorem handleClose_nonzero (filename now : String) (code : Int)
    (hc : code ≠ 0) (st : IndexingStatus) :
    (handleClose filename now code st).progress = st.progress ∧
    (handleClose filename now code st).isIndexing = false ∧
    (handleClose filename now code st).lastIndexed = st.lastIndexed ∧
    (handleClose filename now code st).error =
      (if jsTruthyOpt st.error then st.error
       else some ("Process exited with code " ++ toString code)) := by
  simp only [handleClose, if_neg hc]
  split <;> simp_all

/-- Once validation passes, `queryRag` calls the model server with the
selected query text, `top_k = 5`, and the bounded chat history, whatever the
outcome of the call. -/
theorem queryRag_modelCall (req : QueryReq) (msgs : List Msg)
    (convs : List Conversation) (outcome : ModelOutcome) (now : Nat)
    (hq : jsTruthyOpt (if jsTruthyOpt req.question then req.question else req.query) = true) :
    (queryRag req msgs convs outcome now).modelCall =
      some { query := (if jsTruthyOpt req.question then req.question else req.query).getD ""
             top_k := 5
             chat_history :=
               match req.conversationId with
               | some cid => chatHistoryFor msgs cid
               | none => [] } := by
  cases outcome with
  | failure e => simp [queryRag, hq]
  | success resp =>
    simp only [queryRag, hq, Bool.not_true, Bool.false_eq_true, if_false]
    split <;> rfl

/-! ## Claim theorems -/

/-- C1: while `indexingStatus.isIndexing` is true, `indexDocument` answers
409 with `success: false`, the message `Indexing already in progress` and the
current progress, spawns no indexer process, and leaves the status record
unchanged — whatever the request body and the `data/` directory contain. -/
theorem indexDocument_rejects_concurrent_requests (st : IndexingStatus)
    (filenameField : Option String) (dataFiles : List String)
    (h : st.isIndexing = true) :
    indexDocument st filenameField dataFiles =
      ({ status := 409, success := false, message := "Indexing already in progress"
         progress := some st.progress }, st, false) := by
  simp [indexDocument, h]

/-- Witness for C1: a concrete in-flight status record and request. -/
theorem indexDocument_rejects_concurrent_requests_witness :
    (freshIndexingStatus "egyptian_history.pdf").isIndexing = true ∧
    indexDocument (freshIndexingStatus "egyptian_history.pdf")
        (some "egyptian_history.pdf") ["egyptian_history.pdf"] =
      ({ status := 409, success := false, message := "Indexing already in progress"
         progress := some 0 }, freshIndexingStatus "egyptian_history.pdf", false) :=
  ⟨rfl, indexDocument_rejects_concurrent_requests _ _ _ rfl⟩

/-- Counterexample to C2: while `A.pdf` is being indexed (`currentFile =
"A.pdf"`), an index request for the different, present document `B.pdf` is
NOT accepted: it is rejected with 409 and no indexer process is spawned — the
guard reads only `isIndexing` and never compares filenames, so indexing is
not "single-flight per document". -/
theorem indexDocument_rejects_other_document :
    (indexDocument inFlightOnA (some "B.pdf") ["B.pdf"]).1.status = 409 ∧
    (indexDocument inFlightOnA (some "B.pdf") ["B.pdf"]).1.success = false ∧
    (indexDocument inFlightOnA (some "B.pdf") ["B.pdf"]).2 = (inFlightOnA, false) := by
  decide

/-- C2 as amended: indexing is single-flight globally, not per document — an
index request for any filename made while any run is in flight (even for a
document different from `currentFile`) is rejected with 409 and spawns
nothing. -/
theorem indexDocument_single_flight_is_global (st : IndexingStatus)
    (a b : String) (files : List String) (hrun : st.isIndexing = true)
    (hcur : st.currentFile = some a) (hne : a ≠ b) :
    (indexDocument st (some b) files).1.status = 409 ∧
    (indexDocument st (some b) files).1.success = false ∧
    (indexDocument st (some b) files).2 = (st, false) := by
  simp [indexDocument, hrun]

/-- Witness for the amended C2. -/
theorem indexDocument_single_flight_is_global_witness :
    inFlightOnA.isIndexing = true ∧ inFlightOnA.currentFile = some "A.pdf" ∧
    "A.pdf" ≠ "B.pdf" ∧
    (indexDocument inFlightOnA (some "B.pdf") ["B.pdf"]).1.status = 409 :=
  ⟨rfl, rfl, by decide,
   (indexDocument_single_flight_is_global inFlightOnA "A.pdf" "B.pdf" ["B.pdf"]
     rfl rfl (by decide)).1⟩

/-- Counterexample to C3: the controller does not make progress monotone and
does not reserve 100 for success.  First, a run whose indexer prints
`progress: 50` and then `progress: 30` reports decreasing progress.
Second, a run whose indexer prints `progress: 100` and then exits with code 1
is a failed run (an error is recorded, `lastIndexed` stays null) whose final
reported progress equals 100. -/
theorem indexer_progress_not_monotone_and_100_on_failure :
    (midRunStatus "egyptian_history.pdf" [.stdout "progress: 50"]).progress = 50 ∧
    (midRunStatus "egyptian_history.pdf"
      [.stdout "progress: 50", .stdout "progress: 30"]).progress = 30 ∧
    (runIndexer "egyptian_history.pdf" [.stdout "progress: 100"] 1 "2025-01-01T00:00:00Z")
      = { isIndexing := false, progress := 100
          error := some "Process exited with code 1", message := none
          lastIndexed := none, currentFile := some "egyptian_history.pdf" } := by
  decide

/-- C3 as amended: during a run, progress simply mirrors whatever values the
indexer's stdout reports (no monotonicity or range enforcement by the
controller); on exit code 0 the close handler forces progress to exactly 100
and stamps `lastIndexed`; on a nonzero exit code it leaves progress at its
last reported value — which may equal 100 — leaves `lastIndexed` as is, and
records an error exactly when none was already set. -/
theorem runIndexer_progress_and_exit_behavior (filename now : String)
    (events : List IndexerEvent) (code : Int) :
    (code = 0 →
      (runIndexer filename events code now).progress = 100 ∧
      (runIndexer filename events code now).isIndexing = false ∧
      (runIndexer filename events code now).lastIndexed = some now) ∧
    (code ≠ 0 →
      (runIndexer filename events code now).progress =
        (midRunStatus filename events).progress ∧
      (runIndexer filename events code now).isIndexing = false ∧
      (runIndexer filename events code now).lastIndexed = none ∧
      (runIndexer filename events code now).error =
        (if jsTruthyOpt (midRunStatus filename events).error then
          (midRunStatus filename events).error
         else some ("Process exited with code " ++ toString code))) := by
  constructor
  · intro h
    subst h
    exact handleClose_zero filename now (midRunStatus filename events)
  · intro h
    have hmid : (midRunStatus filename events).lastIndexed = none :=
      (foldl_handleEvent_fixed_fields events (freshIndexingStatus filename)).1
    have := handleClose_nonzero filename now code h (midRunStatus filename events)
    exact ⟨this.1, this.2.1, (this.2.2.1).trans hmid, this.2.2.2⟩

/-- Witness for the amended C3: a successful run and a failed run. -/
theorem runIndexer_progress_and_exit_behavior_witness :
    (runIndexer "egyptian_history.pdf" [.stdout "progress: 40"] 0 "T").progress = 100 ∧
    (runIndexer "egyptian_history.pdf" [.stdout "progress: 40"] 2 "T").progress =
      (midRunStatus "egyptian_history.pdf" [.stdout "progress: 40"]).progress :=
  ⟨((runIndexer_progress_and_exit_behavior "egyptian_history.pdf" "T"
      [.stdout "progress: 40"] 0).1 rfl).1,
   ((runIndexer_progress_and_exit_behavior "egyptian_history.pdf" "T"
      [.stdout "progress: 40"] 2).2 (by decide)).1⟩

/-- C4: when the model-server call fails (the axios promise rejects with
message `e`) on a validated query, `queryRag` answers HTTP 500 with
`success: false` and the error message, and neither the message collection
nor the conversation collection is changed — no user or assistant turn is
persisted. -/
theorem queryRag_model_error_writes_nothing (req : QueryReq) (msgs : List Msg)
    (convs : List Conversation) (e : String) (now : Nat)
    (hq : jsTruthyOpt (if jsTruthyOpt req.question then req.question else req.query) = true) :
    (queryRag req msgs convs (.failure e) now).response =
      .serverError "Error generating response from model server" e ∧
    (queryRag req msgs convs (.failure e) now).response.statusCode = 500 ∧
    (queryRag req msgs convs (.failure e) now).response.successField = some false ∧
    (queryRag req msgs convs (.failure e) now).msgs = msgs ∧
    (queryRag req msgs convs (.failure e) now).convs = convs := by
  simp [queryRag, hq, QueryResponse.statusCode, QueryResponse.successField]

/-- Witness for C4: a concrete failing call against a nonempty store. -/
theorem queryRag_model_error_writes_nothing_witness :
    jsTruthyOpt (if jsTruthyOpt (QueryReq.mk (some "Who built the Great Pyramid") none (some 1) none none).question
        then (QueryReq.mk (some "Who built the Great Pyramid") none (some 1) none none).question
        else (QueryReq.mk (some "Who built the Great Pyramid") none (some 1) none none).query) = true ∧
    (queryRag (QueryReq.mk (some "Who built the Great Pyramid") none (some 1) none none)
      [{ conversationId := 1, role := "user", content := "hi", timestamp := 3 }]
      [{ id := 1, updatedAt := 3 }] (.failure "connect ECONNREFUSED") 9).msgs =
      [{ conversationId := 1, role := "user", content := "hi", timestamp := 3 }] :=
  ⟨by decide,
   (queryRag_model_error_writes_nothing
      (QueryReq.mk (some "Who built the Great Pyramid") none (some 1) none none)
      [{ conversationId := 1, role := "user", content := "hi", timestamp := 3 }]
      [{ id := 1, updatedAt := 3 }] "connect ECONNREFUSED" 9 (by decide)).2.2.2.1⟩

/-- Counterexample to C5: with the `format=text` query parameter, the 200
response is the bare plain-text answer — it carries no `sources` list, no
`enhanced_query` and no `original_query`, so not every query response
carries that structure. -/
theorem queryRag_text_format_lacks_structure :
    (queryRag textFormatReq [] [] khufuOutcome 0).response = .textAnswer "Khufu" := by
  decide

/-- C5 as amended: every JSON-format query response — the default, used
whenever the caller sets `format=json` in the query string or body, or sets
no truthy `format` query parameter at all — carries the answer together with
a sources list (possibly empty), an enhanced_query (possibly absent) and an
original_query; only an explicit non-`json` `format` query parameter yields
a bare plain-text answer instead. -/
theorem queryRag_json_response_structure (req : QueryReq) (msgs : List Msg)
    (convs : List Conversation) (resp : Option RespObj) (now : Nat)
    (hq : jsTruthyOpt (if jsTruthyOpt req.question then req.question else req.query) = true)
    (hfmt : req.queryFormat = some "json" ∨ req.bodyFormat = some "json" ∨
      jsTruthyOpt req.queryFormat = false) :
    (queryRag req msgs convs (.success resp) now).response =
      .jsonAnswer (extractAnswer resp).1 (extractAnswer resp).2.1
        (extractAnswer resp).2.2.1 (extractAnswer resp).2.2.2 := by
  rcases hfmt with h | h | h <;> simp [queryRag, hq, h]

/-- Witness for the amended C5: a default-format request. -/
theorem queryRag_json_response_structure_witness :
    (queryRag (QueryReq.mk (some "Who built the Great Pyramid") none none none none)
      [] [] khufuOutcome 0).response =
      .jsonAnswer "Khufu" ["page 2"] none (some "Who built the Great Pyramid") :=
  queryRag_json_response_structure
    (QueryReq.mk (some "Who built the Great Pyramid") none none none none)
    [] [] (some { answer := .str "Khufu", sources := some ["page 2"]
                  original := some "Who built the Great Pyramid" }) 0
    (by decide) (Or.inr (Or.inr rfl))

/-- C6: for a query carrying a `conversationId`, the history sent to the
model server is exactly `chatHistoryFor`, which is an ordered sequence of at
most 10 messages of that conversation (the last 5 user/assistant exchanges),
most-recent-last by timestamp, every message of the conversation left out
being no newer than every message kept, and each kept turn reduced to its
role and content. -/
theorem queryRag_history_recent_bounded (store : List Msg) (cid : Nat)
    (req : QueryReq) (convs : List Conversation) (outcome : ModelOutcome)
    (now : Nat) (qt : String) :
    chatHistoryFor store cid =
      (recentMessages store cid).map (fun m => (m.role, m.content)) ∧
    (recentMessages store cid).length ≤ 10 ∧
    List.Sorted (fun a b : Msg => a.timestamp ≤ b.timestamp)
      (recentMessages store cid) ∧
    (∀ m ∈ recentMessages store cid, m.conversationId = cid) ∧
    (∀ m ∈ conversationMessages store cid, m ∉ recentMessages store cid →
      ∀ m' ∈ recentMessages store cid, m.timestamp ≤ m'.timestamp) ∧
    (req.conversationId = some cid → req.question = some qt →
      jsTruthy qt = true →
      (queryRag req store convs outcome now).modelCall =
        some { query := qt, top_k := 5, chat_history := chatHistoryFor store cid }) := by
  have hsorted : List.Sorted tsDesc
      ((conversationMessages store cid).insertionSort tsDesc) :=
    List.sorted_insertionSort tsDesc (conversationMessages store cid)
  refine ⟨rfl, ?_, ?_, ?_, ?_, ?_⟩
  · simp only [recentMessages, List.length_reverse, List.length_take]
    omega
  · exact List.pairwise_reverse.mpr
      (hsorted.sublist (List.take_sublist 10 _))
  · intro m hm
    have hmem : m ∈ (conversationMessages store cid).insertionSort tsDesc :=
      (List.take_sublist 10 _).subset (List.mem_reverse.mp hm)
    have : m ∈ conversationMessages store cid :=
      (List.perm_insertionSort tsDesc _).subset hmem
    have := (List.mem_filter.mp this).2
    simpa using this
  · intro m hm hnot m' hm'
    have hmem : m ∈ (conversationMessages store cid).insertionSort tsDesc :=
      ((List.perm_insertionSort tsDesc _).mem_iff).mpr hm
    have hsplit : m ∈ ((conversationMessages store cid).insertionSort tsDesc).take 10 ∨
        m ∈ ((conversationMessages store cid).insertionSort tsDesc).drop 10 := by
      rw [← List.take_append_drop 10 ((conversationMessages store cid).insertionSort tsDesc)]
        at hmem
      exact List.mem_append.mp hmem
    have hdrop : m ∈ ((conversationMessages store cid).insertionSort tsDesc).drop 10 :=
      hsplit.resolve_left (fun h => hnot (List.mem_reverse.mpr h))
    have htake : m' ∈ ((conversationMessages store cid).insertionSort tsDesc).take 10 :=
      List.mem_reverse.mp hm'
    have hp : List.Pairwise tsDesc
        (((conversationMessages store cid).insertionSort tsDesc).take 10 ++
         ((conversationMessages store cid).insertionSort tsDesc).drop 10) := by
      rw [List.take_append_drop]
      exact hsorted
    exact (List.pairwise_append.mp hp).2.2 m' htake m hdrop
  · intro h1 h2 h3
    cases outcome with
    | failure e => simp [queryRag, h1, h2, jsTruthyOpt, h3]
    | success resp =>
      simp only [queryRag, h1, h2, jsTruthyOpt, h3, Bool.not_true]
      split <;> simp_all <;> split <;> rfl

/-- Witness for C6: with twelve stored messages, the model call carries the
bounded history, the two oldest messages are dropped, and a dropped message
is no newer than a kept one. -/
theorem queryRag_history_recent_bounded_witness :
    (queryRag { question := some "When did he rule", conversationId := some 1 }
        demoStore [] (.failure "down") 0).modelCall =
      some { query := "When did he rule", top_k := 5
             chat_history := chatHistoryFor demoStore 1 } ∧
    demoMsg 1 ∈ conversationMessages demoStore 1 ∧
    demoMsg 1 ∉ recentMessages demoStore 1 ∧
    demoMsg 3 ∈ recentMessages demoStore 1 ∧
    (demoMsg 1).timestamp ≤ (demoMsg 3).timestamp :=
  ⟨(queryRag_history_recent_bounded demoStore 1
      { question := some "When did he rule", conversationId := some 1 }
      [] (.failure "down") 0 "When did he rule").2.2.2.2.2 rfl rfl (by decide),
   by decide, by decide, by decide,
   (queryRag_history_recent_bounded demoStore 1
      { question := some "When did he rule", conversationId := some 1 }
      [] (.failure "down") 0 "When did he rule").2.2.2.2.1
     (demoMsg 1) (by decide) (by decide) (demoMsg 3) (by decide)⟩

/-- C7: whenever `indexDocument` accepts a request (no run in flight, a
truthy `filename` in the body naming a file present in `data/`), it answers
202, resets the status record to `{isIndexing: true, progress: 0, error:
null, message: null, lastIndexed: null, currentFile: filename}` before the
run starts, and spawns the indexer; polling `getStatus` then shows no stale
`lastIndexed`/`error`/`message` from any prior run, and throughout the run's
data events `lastIndexed` stays null while `isIndexing` stays true. -/
theorem indexDocument_accept_resets_status (st : IndexingStatus) (fn : String)
    (files : List String) (hidle : st.isIndexing = false)
    (hfn : jsTruthy fn = true) (hex : files.contains fn = true) :
    indexDocument st (some fn) files =
      ({ status := 202, success := true, message := "Indexing started for " ++ fn
         statusEcho := some (freshIndexingStatus fn) }, freshIndexingStatus fn, true) ∧
    freshIndexingStatus fn =
      { isIndexing := true, progress := 0, error := none, message := none
        lastIndexed := none, currentFile := some fn } ∧
    getStatus (freshIndexingStatus fn) =
      { isIndexing := true, progress := 0, message := none, error := none
        lastIndexed := none } ∧
    ∀ evs : List IndexerEvent,
      (midRunStatus fn evs).lastIndexed = none ∧
      (midRunStatus fn evs).isIndexing = true := by
  refine ⟨?_, rfl, rfl, ?_⟩
  · simp [indexDocument, hidle, jsTruthyOpt, hfn, hex]
    simpa using hex
  · intro evs
    exact foldl_handleEvent_fixed_fields evs (freshIndexingStatus fn)

/-- Witness for C7: accepting a request for `egyptian_history.pdf` while
stale results from a previous failed run are still in the record. -/
theorem indexDocument_accept_resets_status_witness :
    (IndexingStatus.mk false 100 (some "old error") (some "old message")
        (some "2024-01-01") (some "egyptian_history.pdf")).isIndexing = false ∧
    jsTruthy "egyptian_history.pdf" = true ∧
    ["egyptian_history.pdf"].contains "egyptian_history.pdf" = true ∧
    (indexDocument
        (IndexingStatus.mk false 100 (some "old error") (some "old message")
          (some "2024-01-01") (some "egyptian_history.pdf"))
        (some "egyptian_history.pdf") ["egyptian_history.pdf"]).2.1 =
      freshIndexingStatus "egyptian_history.pdf" :=
  ⟨rfl, by decide, by decide, by
    rw [(indexDocument_accept_resets_status
      (IndexingStatus.mk false 100 (some "old error") (some "old message")
        (some "2024-01-01") (some "egyptian_history.pdf"))
      "egyptian_history.pdf" ["egyptian_history.pdf"] rfl (by decide) (by decide)).1]⟩

/-- Counterexample to C8: with both body keys present — `question` bound to
the empty string and `query` bound to `capital of Egypt` — the model server
is called with the `query` value, not the `question` value, because
`req.body.question || req.body.query` prefers `question` only when it is
truthy. -/
theorem queryRag_empty_question_not_preferred :
    ((queryRag emptyQuestionReq [] [] (.failure "down") 0).modelCall).map
      ModelCall.query = some "capital of Egypt" := by
  decide

/-- C8 as amended: `queryRag` takes the question from body key `question`
when that key holds a nonempty string, else from body key `query` when that
one holds a nonempty string (a present-but-empty `question` is skipped); when
both are missing or empty it responds 400 `Question is required` without
calling the model server and without touching the message or conversation
collections. -/
theorem queryRag_question_key_selection (req : QueryReq) (msgs : List Msg)
    (convs : List Conversation) (outcome : ModelOutcome) (now : Nat) :
    (jsTruthyOpt req.question = false → jsTruthyOpt req.query = false →
      queryRag req msgs convs outcome now =
        { response := .badRequest "Question is required", msgs := msgs
          convs := convs, modelCall := none }) ∧
    (∀ q, req.question = some q → jsTruthy q = true →
      ((queryRag req msgs convs outcome now).modelCall).map ModelCall.query = some q) ∧
    (jsTruthyOpt req.question = false → ∀ q, req.query = some q →
      jsTruthy q = true →
      ((queryRag req msgs convs outcome now).modelCall).map ModelCall.query = some q) := by
  refine ⟨?_, ?_, ?_⟩
  · intro h1 h2
    simp [queryRag, h1, h2]
  · intro q hq hqt
    have hsel : (if jsTruthyOpt req.question then req.question else req.query) =
        some q := by
      rw [hq]; simp [jsTruthyOpt, hqt]
    rw [queryRag_modelCall req msgs convs outcome now
      (by rw [hsel]; simpa [jsTruthyOpt] using hqt), hsel]
    rfl
  · intro h1 q hq hqt
    have hsel : (if jsTruthyOpt req.question then req.question else req.query) =
        some q := by
      rw [if_neg (by simp [h1]), hq]
    rw [queryRag_modelCall req msgs convs outcome now
      (by rw [hsel]; simpa [jsTruthyOpt] using hqt), hsel]
    rfl

/-- Witness for the amended C8: preference for a nonempty `question`,
fallback to `query`, and the 400 on two empty keys. -/
theorem queryRag_question_key_selection_witness :
    ((queryRag { question := some "Who built it", query := some "ignored" }
        [] [] (.failure "down") 0).modelCall).map ModelCall.query =
      some "Who built it" ∧
    ((queryRag emptyQuestionReq [] [] (.failure "down") 0).modelCall).map
      ModelCall.query = some "capital of Egypt" ∧
    queryRag { question := some "", query := none } [] [] (.failure "down") 0 =
      { response := .badRequest "Question is required", msgs := [], convs := []
        modelCall := none } :=
  ⟨(queryRag_question_key_selection
      { question := some "Who built it", query := some "ignored" }
      [] [] (.failure "down") 0).2.1 "Who built it" rfl (by decide),
   (queryRag_question_key_selection emptyQuestionReq
      [] [] (.failure "down") 0).2.2 (by decide) "capital of Egypt" rfl (by decide),
   (queryRag_question_key_selection { question := some "", query := none }
      [] [] (.failure "down") 0).1 (by decide) (by decide)⟩

/-- C9: multer's storage configuration saves every accepted upload into
`data/` under the fixed name `egyptian_history.pdf` whatever the original
filename was, and its `fileFilter` rejects any file whose mimetype is not
`application/pdf` with `Only PDF files are allowed!`, leaving the `data/`
directory untouched. -/
theorem multerSave_fixed_name_and_pdf_filter (f : UploadedFile)
    (dataFiles : List String) :
    (f.mimetype = "application/pdf" →
      (multerSave f dataFiles).1 = .ok "egyptian_history.pdf" ∧
      (multerSave f dataFiles).2 = addFile dataFiles "egyptian_history.pdf" ∧
      "egyptian_history.pdf" ∈ (multerSave f dataFiles).2) ∧
    (f.mimetype ≠ "application/pdf" →
      multerSave f dataFiles = (.error "Only PDF files are allowed!", dataFiles)) := by
  constructor
  · intro h
    refine ⟨by simp [multerSave, h], by simp [multerSave, h], ?_⟩
    simp only [multerSave, if_pos h, addFile]
    split
    · simpa using ‹dataFiles.contains "egyptian_history.pdf" = true›
    · simp
  · intro h
    simp [multerSave, h]

/-- Witness for C9: an accepted upload with an unrelated original name and a
rejected non-PDF upload. -/
theorem multerSave_fixed_name_and_pdf_filter_witness :
    (UploadedFile.mk "my thesis (final).PDF" "application/pdf").mimetype =
      "application/pdf" ∧
    (multerSave (UploadedFile.mk "my thesis (final).PDF" "application/pdf") []).1 =
      .ok "egyptian_history.pdf" ∧
    (UploadedFile.mk "notes.txt" "text/plain").mimetype ≠ "application/pdf" ∧
    multerSave (UploadedFile.mk "notes.txt" "text/plain") ["egyptian_history.pdf"] =
      (.error "Only PDF files are allowed!", ["egyptian_history.pdf"]) :=
  ⟨rfl,
   (multerSave_fixed_name_and_pdf_filter
      (UploadedFile.mk "my thesis (final).PDF" "application/pdf") []).1 rfl |>.1,
   by decide,
   (multerSave_fixed_name_and_pdf_filter
      (UploadedFile.mk "notes.txt" "text/plain") ["egyptian_history.pdf"]).2
     (by decide)⟩

/-- `getDocuments` reports a pdf as indexed exactly when some vector-store
entry ends in `_metadata.json` and, with that marker removed and lowercased,
equals the pdf's name with `.pdf` removed and lowercased. -/
theorem isIndexedDoc_iff (vs : List String) (f : String) :
    isIndexedDoc vs f = true ↔
      ∃ m ∈ vs, jsEndsWith m "_metadata.json" = true ∧
        jsToLower (jsReplace m "_metadata.json" "") =
          jsToLower (jsReplace f ".pdf" "") := by
  rw [isIndexedDoc, List.elem_iff]
  simp only [List.mem_map, List.mem_filter]
  constructor
  · rintro ⟨m, ⟨hm, hend⟩, heq⟩
    exact ⟨m, hm, hend, heq⟩
  · rintro ⟨m, hm, hend, heq⟩
    exact ⟨m, ⟨hm, hend⟩, heq⟩

/-- Counterexample to C10: with a differently-cased metadata file
`EGYPTIAN_HISTORY_metadata.json` in the vector store, a fresh upload (multer
stores the accepted file as `egyptian_history.pdf`, then `uploadPdf` deletes
only the exact-case `egyptian_history_metadata.json`, which does not exist)
is still reported as indexed, because `getDocuments` matches basenames
case-insensitively while the deletion is case-sensitive. -/
theorem uploadPdf_case_mismatch_still_indexed :
    getDocuments
      (uploadPdf
        { dataFiles :=
            (multerSave { originalname := "book.pdf", mimetype := "application/pdf" } []).2
          vectorStoreFiles := ["EGYPTIAN_HISTORY_metadata.json"] }
        "egyptian_history.pdf") =
      [("egyptian_history.pdf", true)] := by
  decide

/-- C10 as amended: `getDocuments` reports a pdf as indexed exactly when the
vector store holds a `<basename>_metadata.json` entry matching the pdf's
basename case-insensitively; and a freshly uploaded or re-uploaded document
is reported unindexed provided every metadata entry matching its basename
does so with the exact case, because `uploadPdf` deletes only the exact-case
`egyptian_history_metadata.json` while the indexed check is
case-insensitive. -/
theorem getDocuments_indexed_flag (vs : List String) (f : String) (fs : FsState)
    (huniq : ∀ m ∈ fs.vectorStoreFiles, jsEndsWith m "_metadata.json" = true →
      jsToLower (jsReplace m "_metadata.json" "") = "egyptian_history" →
      m = "egyptian_history_metadata.json") :
    (isIndexedDoc vs f = true ↔
      ∃ m ∈ vs, jsEndsWith m "_metadata.json" = true ∧
        jsToLower (jsReplace m "_metadata.json" "") =
          jsToLower (jsReplace f ".pdf" "")) ∧
    isIndexedDoc (uploadPdf fs "egyptian_history.pdf").vectorStoreFiles
      "egyptian_history.pdf" = false := by
  refine ⟨isIndexedDoc_iff vs f, ?_⟩
  by_contra hcontra
  have htrue : isIndexedDoc (uploadPdf fs "egyptian_history.pdf").vectorStoreFiles
      "egyptian_history.pdf" = true := by
    cases h : isIndexedDoc (uploadPdf fs "egyptian_history.pdf").vectorStoreFiles
      "egyptian_history.pdf"
    · exact absurd h hcontra
    · rfl
  obtain ⟨m, hmem, hend, hmatch⟩ := (isIndexedDoc_iff _ _).mp htrue
  have hbase : jsReplace "egyptian_history.pdf" ".pdf" "" = "egyptian_history" := by
    decide
  have happ : jsReplace "egyptian_history.pdf" ".pdf" "" ++ "_metadata.json" =
      "egyptian_history_metadata.json" := by decide
  simp only [uploadPdf, happ, List.mem_filter] at hmem
  have hmatch' : jsToLower (jsReplace m "_metadata.json" "") = "egyptian_history" := by
    rw [hmatch]; decide
  have hm := huniq m hmem.1 hend hmatch'
  rw [hm] at hmem
  simp at hmem

/-- Witness for the amended C10: an exact-case metadata file makes the
document indexed, and after a fresh upload it is reported unindexed. -/
theorem getDocuments_indexed_flag_witness :
    isIndexedDoc ["egyptian_history_metadata.json"] "egyptian_history.pdf" = true ∧
    isIndexedDoc
      (uploadPdf ⟨["egyptian_history.pdf"], ["egyptian_history_metadata.json"]⟩
        "egyptian_history.pdf").vectorStoreFiles "egyptian_history.pdf" = false :=
  ⟨(getDocuments_indexed_flag ["egyptian_history_metadata.json"]
      "egyptian_history.pdf"
      ⟨["egyptian_history.pdf"], ["egyptian_history_metadata.json"]⟩
      (by decide)).1.mpr
     ⟨"egyptian_history_metadata.json", by decide, by decide, by decide⟩,
   (getDocuments_indexed_flag ["egyptian_history_metadata.json"]
      "egyptian_history.pdf"
      ⟨["egyptian_history.pdf"], ["egyptian_history_metadata.json"]⟩
      (by decide)).2⟩
